import Mathlib

/-!
Shallow embedding of the learn_vulkan repository: swapchain parameter
selection (VulkanUtils and the HelloTriangleApplication variant), device
suitability, the per-frame synchronization state machine of
VulkanApp::drawFrame, swapchain recreation, and the fatal-error reporting
path, together with theorems settling the frozen claims about them.
-/

set_option maxHeartbeats 1000000

namespace LearnVulkan

/-- Numeric value of the Vulkan enum constant VK_FORMAT_B8G8R8A8_SRGB. -/
def VK_FORMAT_B8G8R8A8_SRGB : Nat := 50

/-- Numeric value of VK_COLORSPACE_SRGB_NONLINEAR_KHR (= VK_COLOR_SPACE_SRGB_NONLINEAR_KHR = 0). -/
def VK_COLORSPACE_SRGB_NONLINEAR_KHR : Nat := 0

/-- Numeric value of VK_PRESENT_MODE_IMMEDIATE_KHR. -/
def VK_PRESENT_MODE_IMMEDIATE_KHR : Nat := 0

/-- Numeric value of VK_PRESENT_MODE_MAILBOX_KHR. -/
def VK_PRESENT_MODE_MAILBOX_KHR : Nat := 1

/-- Numeric value of VK_PRESENT_MODE_FIFO_KHR. -/
def VK_PRESENT_MODE_FIFO_KHR : Nat := 2

/-- Largest value of a 32-bit unsigned integer (the C constant UINT32_MAX). -/
def UINT32_MAX : Nat := 4294967295

/-- Largest value of a 16-bit unsigned integer (the C constant UINT16_MAX). -/
def UINT16_MAX : Nat := 65535

/-- Largest value of a 64-bit unsigned integer (the C constant UINT64_MAX). -/
def UINT64_MAX : Nat := 18446744073709551615

/-- VulkanConfig::MAX_FRAMES_IN_FLIGHT from src/vulkan_config.h. -/
def MAX_FRAMES_IN_FLIGHT : Nat := 2

/-- VkSurfaceFormatKHR: a pixel format paired with a color space. -/
structure VkSurfaceFormatKHR where
  format : Nat
  colorSpace : Nat
deriving DecidableEq, Repr

/-- VkExtent2D: a width/height pair (uint32_t fields, modelled as Nat). -/
structure VkExtent2D where
  width : Nat
  height : Nat
deriving DecidableEq, Repr

/-- The fields of VkSurfaceCapabilitiesKHR that chooseSwapExtent reads. -/
structure VkSurfaceCapabilitiesKHR where
  currentExtent : VkExtent2D
  minImageExtent : VkExtent2D
  maxImageExtent : VkExtent2D
deriving DecidableEq, Repr

/-- The condition tested inside the loop of chooseSwapSurfaceFormat:
the entry has format VK_FORMAT_B8G8R8A8_SRGB and color space
VK_COLORSPACE_SRGB_NONLINEAR_KHR. -/
def isPreferredSurfaceFormat (f : VkSurfaceFormatKHR) : Bool :=
  f.format == VK_FORMAT_B8G8R8A8_SRGB && f.colorSpace == VK_COLORSPACE_SRGB_NONLINEAR_KHR

/-- VulkanUtils::chooseSwapSurfaceFormat (identical logic in
HelloTriangleApplication::chooseSwapSurfaceFormat): scan the list for the
preferred format/color-space pair and return it, otherwise return element 0.
The element-0 access of the C++ is modelled by head?, so the result is none
exactly when that access would be out of bounds. -/
def chooseSwapSurfaceFormat (availableFormats : List VkSurfaceFormatKHR) :
    Option VkSurfaceFormatKHR :=
  match availableFormats.find? isPreferredSurfaceFormat with
  | some f => some f
  | none => availableFormats.head?

/-- VulkanUtils::chooseSwapPresentMode (identical logic in
HelloTriangleApplication::chooseSwapPresentMode): return
VK_PRESENT_MODE_MAILBOX_KHR if it occurs in the list, otherwise
VK_PRESENT_MODE_FIFO_KHR. -/
def chooseSwapPresentMode (availablePresentModes : List Nat) : Nat :=
  match availablePresentModes.find? (fun m => m == VK_PRESENT_MODE_MAILBOX_KHR) with
  | some m => m
  | none => VK_PRESENT_MODE_FIFO_KHR

/-- The clamp pattern std::max(lo, std::min(hi, x)) used by chooseSwapExtent. -/
def clampDim (lo hi x : Nat) : Nat := max lo (min hi x)

/-- VulkanUtils::chooseSwapExtent (identical logic in
HelloTriangleApplication::chooseSwapExtent).  The framebuffer size queried
from glfwGetFramebufferSize is passed in as fbWidth/fbHeight. -/
def chooseSwapExtent (capabilities : VkSurfaceCapabilitiesKHR)
    (fbWidth fbHeight : Nat) : VkExtent2D :=
  if capabilities.currentExtent.width ≠ UINT32_MAX then
    capabilities.currentExtent
  else
    { width := clampDim capabilities.minImageExtent.width
        capabilities.maxImageExtent.width fbWidth,
      height := clampDim capabilities.minImageExtent.height
        capabilities.maxImageExtent.height fbHeight }

/-- The Vulkan sentinel value of currentExtent meaning the surface size is
undefined: both members equal to UINT32_MAX (0xFFFFFFFF, 0xFFFFFFFF). -/
def undefinedExtentSentinel : VkExtent2D :=
  { width := UINT32_MAX, height := UINT32_MAX }

/-- One VkQueueFamilyProperties entry as findQueueFamilies observes it:
whether queueFlags has VK_QUEUE_GRAPHICS_BIT, and whether
vkGetPhysicalDeviceSurfaceSupportKHR reports present support for the
family index on the app surface. -/
structure VkQueueFamilyProperties where
  supportsGraphics : Bool
  supportsPresent : Bool
deriving DecidableEq, Repr

/-- The QueueFamilyIndices struct. -/
structure QueueFamilyIndices where
  graphicsFamily : Option Nat
  presentFamily : Option Nat
deriving DecidableEq, Repr

/-- QueueFamilyIndices::isComplete. -/
def QueueFamilyIndices.isComplete (i : QueueFamilyIndices) : Bool :=
  i.graphicsFamily.isSome && i.presentFamily.isSome

/-- The loop body of findQueueFamilies: walk the family list with a running
index, record the latest graphics-capable and present-capable indices, and
break as soon as both are recorded. -/
def findQueueFamiliesAux :
    List VkQueueFamilyProperties → Nat → QueueFamilyIndices → QueueFamilyIndices
  | [], _, ind => ind
  | qf :: rest, index, ind =>
    let ind1 := if qf.supportsGraphics then { ind with graphicsFamily := some index } else ind
    let ind2 := if qf.supportsPresent then { ind1 with presentFamily := some index } else ind1
    if ind2.isComplete then ind2 else findQueueFamiliesAux rest (index + 1) ind2

/-- A physical device as the suitability checks observe it through the
Vulkan query calls: its queue family properties, the names of its
available device extensions, the surface formats and present modes
reported for the app surface, and the samplerAnisotropy feature bit. -/
structure VkPhysicalDevice where
  queueFamilies : List VkQueueFamilyProperties
  availableExtensions : List String
  surfaceFormats : List VkSurfaceFormatKHR
  surfacePresentModes : List Nat
  samplerAnisotropy : Bool
deriving DecidableEq, Repr

/-- VulkanUtils::findQueueFamilies (identical logic in main.cpp). -/
def findQueueFamilies (device : VkPhysicalDevice) : QueueFamilyIndices :=
  findQueueFamiliesAux device.queueFamilies 0
    { graphicsFamily := none, presentFamily := none }

/-- VulkanConfig::gDeviceExtensions: the single required device extension
VK_KHR_SWAPCHAIN_EXTENSION_NAME. -/
def gDeviceExtensions : List String := ["VK_KHR_swapchain"]

/-- checkDeviceExtensionSupported: build the set of required extensions,
erase every available extension name, and succeed when the set is empty,
i.e. when no required extension is left unmatched. -/
def checkDeviceExtensionSupported (device : VkPhysicalDevice) : Bool :=
  (gDeviceExtensions.filter (fun e => !(device.availableExtensions.contains e))).isEmpty

/-- The formats/presentModes part of SwapChainSupportDetails. -/
structure SwapChainSupportDetails where
  formats : List VkSurfaceFormatKHR
  presentModes : List Nat
deriving DecidableEq, Repr

/-- querySwapChainSupport: the surface formats and present modes the
device reports for the app surface. -/
def querySwapChainSupport (device : VkPhysicalDevice) : SwapChainSupportDetails :=
  { formats := device.surfaceFormats, presentModes := device.surfacePresentModes }

/-- VulkanUtils::isDeviceSuitable (part handling vulkan_utils.h): requires
complete queue family indices, extension support, non-empty swapchain
format and present-mode lists, and the samplerAnisotropy device feature. -/
def isDeviceSuitable (device : VkPhysicalDevice) : Bool :=
  let isExtensionSupported := checkDeviceExtensionSupported device
  let isSwapChainAdequate :=
    if isExtensionSupported then
      let swapChainSupport := querySwapChainSupport device
      !swapChainSupport.formats.isEmpty && !swapChainSupport.presentModes.isEmpty
    else false
  (findQueueFamilies device).isComplete && isExtensionSupported &&
    isSwapChainAdequate && device.samplerAnisotropy

/-- The comparison in the find_if predicate of main.cpp's
checkDeviceExtensionSupported: extension.extensionName == extensionName
compares the char[256] member array of VkExtensionProperties (decayed to
a pointer to its own storage) with the required-extension const char*
(a string-literal pointer).  This is a pointer comparison between
distinct objects, never a name comparison, so it is false regardless of
either name. -/
def extensionNameAddressEq (_availName _reqName : String) : Bool := false

/-- checkDeviceExtensionSupported as written in main.cpp: for each
required extension name, find_if over the available extensions with the
address-equality predicate above; return false as soon as a required
name is not found, true after the loop.  Because the predicate never
holds, the search fails for every required extension. -/
def checkDeviceExtensionSupportedMain (device : VkPhysicalDevice) : Bool :=
  gDeviceExtensions.all
    (fun reqName =>
      device.availableExtensions.any
        (fun availName => extensionNameAddressEq availName reqName))

/-- isDeviceSuitable as written in main.cpp (HelloTriangleApplication
snapshot): the same structure as the VulkanUtils variant but with no
device-feature requirement and with main.cpp's own extension check. -/
def isDeviceSuitableMain (device : VkPhysicalDevice) : Bool :=
  let isExtensionSupported := checkDeviceExtensionSupportedMain device
  let isSwapChainAdequate :=
    if isExtensionSupported then
      let swapChainSupport := querySwapChainSupport device
      !swapChainSupport.formats.isEmpty && !swapChainSupport.presentModes.isEmpty
    else false
  (findQueueFamilies device).isComplete && isExtensionSupported && isSwapChainAdequate

/-- VulkanApp::pickPhysicalDevice: fatal when no device is present,
otherwise take the first device passing isDeviceSuitable, fatal when none
passes.  Exceptions are modelled by the Except error constructor. -/
def pickPhysicalDevice (devices : List VkPhysicalDevice) :
    Except String VkPhysicalDevice :=
  if devices.isEmpty then
    Except.error "Failed to find GPUs with Vulkan support!"
  else
    match devices.find? isDeviceSuitable with
    | some d => Except.ok d
    | none => Except.error "Failed to find a suitable GPU"

/-- The subset of VkResult values this code distinguishes. -/
inductive VkResult where
  | success
  | suboptimalKHR
  | errorOutOfDateKHR
  | timeout
  | errorOther
deriving DecidableEq, Repr

/-- Observable Vulkan/GLFW calls issued by drawFrame and
recreateSwapChain, in program order.  Handles are Nat; fences and
semaphores are identified by the handle stored in the app state. -/
inductive Action where
  | waitFences (fence timeout : Nat)
  | acquireNextImage (semaphore timeout : Nat)
  | resetFences (fence : Nat)
  | updateUniformBuffer (imageIndex : Nat)
  | queueSubmit (waitSemaphore signalSemaphore signalFence imageIndex : Nat)
  | queuePresent (waitSemaphore imageIndex : Nat)
  | pollFramebufferSize (width height : Nat)
  | waitEvents
  | deviceWaitIdle
  | cleanupSwapChainAct
  | createSwapChainAct
  | createImageViewsAct
  | createRenderPassAct
  | createGraphicsPipelineAct
  | createFrameBuffersAct
  | createUniformBuffersAct
  | createDescriptorPoolAct
  | createDescriptorSetsAct
  | createCommandBuffersAct
  | resizeImagesInFlight (n : Nat)
deriving DecidableEq, Repr

/-- The VulkanApp members that the drawFrame/recreateSwapChain logic
reads and writes.  VkFence handles are Nat; VK_NULL_HANDLE entries of
imagesInFlight_ are none. -/
structure AppState where
  currentFrameIndex : Nat
  imageAvailableSemaphores : List Nat
  renderFinishedSemaphores : List Nat
  inFlightFences : List Nat
  imagesInFlight : List (Option Nat)
  frameBufferResized : Bool
  swapChainImageCount : Nat
deriving DecidableEq, Repr

/-- std::vector::resize(n, v): truncate when shrinking, append copies of v
when growing; existing elements are kept either way. -/
def listResize {α : Type} (l : List α) (n : Nat) (v : α) : List α :=
  if n ≤ l.length then l.take n else l ++ List.replicate (n - l.length) v

/-- VulkanApp::createSyncObjects: resize the three per-frame arrays to
MAX_FRAMES_IN_FLIGHT and fill each slot with a freshly created handle
(handle allocation is a parameter), and resize imagesInFlight_ to the
swapchain image count with nullptr as the fill value. -/
def createSyncObjects (semA semR fen : Nat → Nat) (s : AppState) : AppState :=
  { s with
    imageAvailableSemaphores := (List.range MAX_FRAMES_IN_FLIGHT).map semA,
    renderFinishedSemaphores := (List.range MAX_FRAMES_IN_FLIGHT).map semR,
    inFlightFences := (List.range MAX_FRAMES_IN_FLIGHT).map fen,
    imagesInFlight := listResize s.imagesInFlight s.swapChainImageCount none }

/-- One iteration layer of the minimization wait loop of
recreateSwapChain after the initial size query: each loop iteration
queries the framebuffer size and then calls glfwWaitEvents, repeating
while the size has a zero dimension.  The argument list is the sequence
of sizes successive queries return; the result is the first size with
both dimensions non-zero together with the trace of calls made, or none
when every queried size has a zero dimension (the loop never exits). -/
def pollLoopInner : List (Nat × Nat) → Option ((Nat × Nat) × List Action)
  | [] => none
  | (w, h) :: rest =>
    if w = 0 ∨ h = 0 then
      match pollLoopInner rest with
      | none => none
      | some (sz, tr) =>
        some (sz, Action.pollFramebufferSize w h :: Action.waitEvents :: tr)
    else some ((w, h), [Action.pollFramebufferSize w h, Action.waitEvents])

/-- The minimization wait of recreateSwapChain: one framebuffer size
query before the loop, then the loop of pollLoopInner. -/
def pollLoop : List (Nat × Nat) → Option ((Nat × Nat) × List Action)
  | [] => none
  | (w, h) :: rest =>
    if w = 0 ∨ h = 0 then
      match pollLoopInner rest with
      | none => none
      | some (sz, tr) => some (sz, Action.pollFramebufferSize w h :: tr)
    else some ((w, h), [Action.pollFramebufferSize w h])

/-- The calls recreateSwapChain makes once the framebuffer is non-zero,
in program order, ending with the imagesInFlight_ resize to the new
swapchain image count. -/
def recreateActions (newImageCount : Nat) : List Action :=
  [Action.deviceWaitIdle,
   Action.cleanupSwapChainAct,
   Action.createSwapChainAct,
   Action.createImageViewsAct,
   Action.createRenderPassAct,
   Action.createGraphicsPipelineAct,
   Action.createFrameBuffersAct,
   Action.createUniformBuffersAct,
   Action.createDescriptorPoolAct,
   Action.createDescriptorSetsAct,
   Action.createCommandBuffersAct,
   Action.resizeImagesInFlight newImageCount]

/-- VulkanApp::recreateSwapChain: block while the framebuffer has a zero
dimension (none when it stays zero forever), then wait for device idle,
destroy and rebuild the swapchain-dependent objects, and resize
imagesInFlight_ to the image count of the new swapchain. -/
def recreateSwapChain (polls : List (Nat × Nat)) (newImageCount : Nat)
    (s : AppState) : Option (AppState × List Action) :=
  match pollLoop polls with
  | none => none
  | some (_, tr) =>
    some ({ s with
            imagesInFlight := listResize s.imagesInFlight newImageCount none,
            swapChainImageCount := newImageCount },
          tr ++ recreateActions newImageCount)

/-- The environment-chosen outcomes a drawFrame call observes: the image
index returned by vkAcquireNextImageKHR, the results of vkQueueSubmit and
vkQueuePresentKHR, and, in case recreateSwapChain runs, the framebuffer
sizes it polls and the image count of the rebuilt swapchain. -/
structure DrawInputs where
  imageIndex : Nat
  submitResult : VkResult
  presentResult : VkResult
  polls : List (Nat × Nat)
  newImageCount : Nat
deriving DecidableEq, Repr

/-- VulkanApp::drawFrame: wait (with timeout UINT16_MAX) on the current
slot fence, acquire an image, wait (unbounded) on the fence recorded for
that image if any, record the slot fence for the image, reset the slot
fence, update the uniform buffer, submit signalling the slot fence and
the slot render-finished semaphore, present waiting on that semaphore,
recreate the swapchain when the present result is out-of-date/suboptimal
or the resize flag is set, and finally advance the frame index modulo
MAX_FRAMES_IN_FLIGHT.  A LOG_FATAL throw or a forever-blocked recreation
yields none. -/
def drawFrame (s : AppState) (inp : DrawInputs) : Option (AppState × List Action) :=
  let slot := s.currentFrameIndex
  let slotFence := s.inFlightFences.getD slot 0
  let imgSem := s.imageAvailableSemaphores.getD slot 0
  let renderSem := s.renderFinishedSemaphores.getD slot 0
  let imageIndex := inp.imageIndex
  let waitImageTrace : List Action :=
    match s.imagesInFlight.getD imageIndex none with
    | some f => [Action.waitFences f UINT64_MAX]
    | none => []
  let s1 := { s with imagesInFlight := s.imagesInFlight.set imageIndex (some slotFence) }
  let preTrace : List Action :=
    Action.waitFences slotFence UINT16_MAX ::
    Action.acquireNextImage imgSem UINT64_MAX ::
    waitImageTrace ++
    [Action.resetFences slotFence,
     Action.updateUniformBuffer imageIndex,
     Action.queueSubmit imgSem renderSem slotFence imageIndex]
  if inp.submitResult ≠ VkResult.success then none
  else
    let fullTrace := preTrace ++ [Action.queuePresent renderSem imageIndex]
    if inp.presentResult = VkResult.errorOutOfDateKHR ∨
       inp.presentResult = VkResult.suboptimalKHR ∨ s1.frameBufferResized then
      (recreateSwapChain inp.polls inp.newImageCount
          { s1 with frameBufferResized := false }).map
        (fun p =>
          ({ p.1 with currentFrameIndex := (p.1.currentFrameIndex + 1) % MAX_FRAMES_IN_FLIGHT },
           fullTrace ++ p.2))
    else if inp.presentResult ≠ VkResult.success then none
    else
      some ({ s1 with currentFrameIndex := (s1.currentFrameIndex + 1) % MAX_FRAMES_IN_FLIGHT },
            fullTrace)

/-- Exit codes of the process entry point. -/
def EXIT_SUCCESS : Nat := 0

/-- Exit code returned when main catches an exception. -/
def EXIT_FAILURE : Nat := 1

/-- LogSystem::fatalCallback: format the message and throw
std::runtime_error; it never returns normally. -/
def fatalCallback (msg : String) : Except String Unit :=
  Except.error msg

/-- The creation-call pattern used throughout the app: when the call does
not return VK_SUCCESS, report through LOG_FATAL, whose fatal callback
throws; otherwise continue. -/
def checkedVkCall (r : VkResult) (msg : String) : Except String Unit :=
  if r = VkResult.success then Except.ok () else fatalCallback msg

/-- Sequencing of the fallible startup/run steps: the first step that
faults aborts the run with that fault, and no later step executes (there
is no retry); a run of all-successful steps succeeds. -/
def runSteps : List (Except String Unit) → Except String Unit
  | [] => Except.ok ()
  | step :: rest =>
    match step with
    | Except.ok _ => runSteps rest
    | Except.error e => Except.error e

/-- The process entry point in main(): run the app under a try/catch;
a propagated exception is logged and turned into EXIT_FAILURE, a normal
return yields EXIT_SUCCESS.  The second component is the error log. -/
def mainEntry (runResult : Except String Unit) : Nat × List String :=
  match runResult with
  | Except.ok _ => (EXIT_SUCCESS, [])
  | Except.error e => (EXIT_FAILURE, [e])

/-- C3: for every non-empty list of supported surface formats,
chooseSwapSurfaceFormat returns a member of the input list; when the list
contains an entry with format B8G8R8A8_SRGB and SRGB-nonlinear color
space, a (the first) such entry is returned; otherwise the first element
of the list is returned. -/
theorem chooseSwapSurfaceFormat_spec (l : List VkSurfaceFormatKHR) (h : l ≠ []) :
    ∃ f, chooseSwapSurfaceFormat l = some f ∧ f ∈ l ∧
      ((∃ g ∈ l, isPreferredSurfaceFormat g = true) → isPreferredSurfaceFormat f = true) ∧
      ((∀ g ∈ l, isPreferredSurfaceFormat g = false) → l.head? = some f) := by
  unfold chooseSwapSurfaceFormat
  cases hfind : l.find? isPreferredSurfaceFormat with
  | some f =>
    refine ⟨f, rfl, List.mem_of_find?_eq_some hfind,
      fun _ => List.find?_some hfind, fun hall => ?_⟩
    have hpf := List.find?_some hfind
    have hf : isPreferredSurfaceFormat f = false :=
      hall f (List.mem_of_find?_eq_some hfind)
    rw [hf] at hpf
    exact absurd hpf (by simp)
  | none =>
    obtain ⟨a, t, rfl⟩ := List.exists_cons_of_ne_nil h
    refine ⟨a, rfl, List.mem_cons_self a t, fun hex => ?_, fun _ => rfl⟩
    obtain ⟨g, hg, hpg⟩ := hex
    have := List.find?_eq_none.mp hfind g hg
    simp [hpg] at this

/-- Witness for chooseSwapSurfaceFormat_spec at a concrete singleton list. -/
theorem chooseSwapSurfaceFormat_spec_witness :
    chooseSwapSurfaceFormat [{ format := 50, colorSpace := 0 }] ≠ none := by
  obtain ⟨f, hf, -, -, -⟩ :=
    chooseSwapSurfaceFormat_spec [{ format := 50, colorSpace := 0 }] (by decide)
  simp [hf]

/-- C4 counterexample: on the input list containing only
VK_PRESENT_MODE_IMMEDIATE_KHR, chooseSwapPresentMode returns
VK_PRESENT_MODE_FIFO_KHR, which is not a member of the input list, so
the claim that the result is always a member of the input fails. -/
theorem chooseSwapPresentMode_not_mem_counterexample :
    chooseSwapPresentMode [VK_PRESENT_MODE_IMMEDIATE_KHR] = VK_PRESENT_MODE_FIFO_KHR ∧
    chooseSwapPresentMode [VK_PRESENT_MODE_IMMEDIATE_KHR] ∉
      [VK_PRESENT_MODE_IMMEDIATE_KHR] := by
  decide

/-- C4 (amended): chooseSwapPresentMode returns the mailbox mode whenever
it is in the list and VK_PRESENT_MODE_FIFO_KHR otherwise; hence the
result is a member of the input list whenever FIFO is in the list. -/
theorem chooseSwapPresentMode_spec (l : List Nat) :
    (VK_PRESENT_MODE_MAILBOX_KHR ∈ l →
       chooseSwapPresentMode l = VK_PRESENT_MODE_MAILBOX_KHR) ∧
    (VK_PRESENT_MODE_MAILBOX_KHR ∉ l →
       chooseSwapPresentMode l = VK_PRESENT_MODE_FIFO_KHR) ∧
    (VK_PRESENT_MODE_FIFO_KHR ∈ l → chooseSwapPresentMode l ∈ l) := by
  unfold chooseSwapPresentMode
  cases hfind : l.find? (fun m => m == VK_PRESENT_MODE_MAILBOX_KHR) with
  | some m =>
    have hm : m = VK_PRESENT_MODE_MAILBOX_KHR := by
      have := List.find?_some hfind
      simpa using this
    subst hm
    exact ⟨fun _ => rfl,
      fun hnot => absurd (List.mem_of_find?_eq_some hfind) hnot,
      fun _ => List.mem_of_find?_eq_some hfind⟩
  | none =>
    have hall := List.find?_eq_none.mp hfind
    refine ⟨fun hmem => ?_, fun _ => rfl, fun hmem => hmem⟩
    have := hall _ hmem
    simp at this

/-- Witness for chooseSwapPresentMode_spec, covering all three branches. -/
theorem chooseSwapPresentMode_spec_witness :
    chooseSwapPresentMode [VK_PRESENT_MODE_MAILBOX_KHR] = VK_PRESENT_MODE_MAILBOX_KHR ∧
    chooseSwapPresentMode [VK_PRESENT_MODE_IMMEDIATE_KHR] = VK_PRESENT_MODE_FIFO_KHR ∧
    chooseSwapPresentMode [VK_PRESENT_MODE_FIFO_KHR] ∈ [VK_PRESENT_MODE_FIFO_KHR] :=
  ⟨(chooseSwapPresentMode_spec [VK_PRESENT_MODE_MAILBOX_KHR]).1 (by decide),
   (chooseSwapPresentMode_spec [VK_PRESENT_MODE_IMMEDIATE_KHR]).2.1 (by decide),
   (chooseSwapPresentMode_spec [VK_PRESENT_MODE_FIFO_KHR]).2.2 (by decide)⟩

/-- C5 counterexample: the code tests only currentExtent.width against
UINT32_MAX, so on capabilities whose currentExtent is (UINT32_MAX, 7) --
which is not the undefined-extent sentinel (UINT32_MAX, UINT32_MAX) --
the function does not return currentExtent verbatim, contradicting the
claim as stated. -/
theorem chooseSwapExtent_sentinel_counterexample :
    (VkSurfaceCapabilitiesKHR.mk ⟨UINT32_MAX, 7⟩ ⟨0, 0⟩ ⟨100, 100⟩).currentExtent ≠
      undefinedExtentSentinel ∧
    chooseSwapExtent (VkSurfaceCapabilitiesKHR.mk ⟨UINT32_MAX, 7⟩ ⟨0, 0⟩ ⟨100, 100⟩) 50 50 ≠
      (VkSurfaceCapabilitiesKHR.mk ⟨UINT32_MAX, 7⟩ ⟨0, 0⟩ ⟨100, 100⟩).currentExtent := by
  decide

/-- C5 (amended): chooseSwapExtent returns currentExtent verbatim
whenever currentExtent.width is not UINT32_MAX, and otherwise returns the
queried framebuffer width and height each clamped by
max(minImageExtent, min(maxImageExtent, fb)); when the interval is
well-formed the result lies in [minImageExtent, maxImageExtent]
componentwise. -/
theorem chooseSwapExtent_spec (caps : VkSurfaceCapabilitiesKHR) (fbWidth fbHeight : Nat) :
    (caps.currentExtent.width ≠ UINT32_MAX →
       chooseSwapExtent caps fbWidth fbHeight = caps.currentExtent) ∧
    (caps.currentExtent.width = UINT32_MAX →
       (chooseSwapExtent caps fbWidth fbHeight).width =
         clampDim caps.minImageExtent.width caps.maxImageExtent.width fbWidth ∧
       (chooseSwapExtent caps fbWidth fbHeight).height =
         clampDim caps.minImageExtent.height caps.maxImageExtent.height fbHeight ∧
       (caps.minImageExtent.width ≤ caps.maxImageExtent.width →
          caps.minImageExtent.width ≤ (chooseSwapExtent caps fbWidth fbHeight).width ∧
          (chooseSwapExtent caps fbWidth fbHeight).width ≤ caps.maxImageExtent.width) ∧
       (caps.minImageExtent.height ≤ caps.maxImageExtent.height →
          caps.minImageExtent.height ≤ (chooseSwapExtent caps fbWidth fbHeight).height ∧
          (chooseSwapExtent caps fbWidth fbHeight).height ≤ caps.maxImageExtent.height)) := by
  constructor
  · intro h
    simp [chooseSwapExtent, h]
  · intro h
    simp only [chooseSwapExtent, h, ne_eq, not_true_eq_false, if_false]
    refine ⟨trivial, trivial, fun hle => ⟨Nat.le_max_left _ _, ?_⟩, fun hle => ⟨Nat.le_max_left _ _, ?_⟩⟩
    · exact Nat.max_le.mpr ⟨hle, Nat.min_le_left _ _⟩
    · exact Nat.max_le.mpr ⟨hle, Nat.min_le_left _ _⟩

/-- Witness for chooseSwapExtent_spec, covering both branches. -/
theorem chooseSwapExtent_spec_witness :
    chooseSwapExtent (VkSurfaceCapabilitiesKHR.mk ⟨5, 6⟩ ⟨1, 1⟩ ⟨9, 9⟩) 7 8 = ⟨5, 6⟩ ∧
    1 ≤ (chooseSwapExtent (VkSurfaceCapabilitiesKHR.mk ⟨UINT32_MAX, 6⟩ ⟨1, 1⟩ ⟨9, 9⟩) 700 0).width ∧
    (chooseSwapExtent (VkSurfaceCapabilitiesKHR.mk ⟨UINT32_MAX, 6⟩ ⟨1, 1⟩ ⟨9, 9⟩) 700 0).width ≤ 9 :=
  ⟨(chooseSwapExtent_spec (VkSurfaceCapabilitiesKHR.mk ⟨5, 6⟩ ⟨1, 1⟩ ⟨9, 9⟩) 7 8).1 (by decide),
   (((chooseSwapExtent_spec (VkSurfaceCapabilitiesKHR.mk ⟨UINT32_MAX, 6⟩ ⟨1, 1⟩ ⟨9, 9⟩) 700 0).2
      (by decide)).2.2.1 (by decide)).1,
   (((chooseSwapExtent_spec (VkSurfaceCapabilitiesKHR.mk ⟨UINT32_MAX, 6⟩ ⟨1, 1⟩ ⟨9, 9⟩) 700 0).2
      (by decide)).2.2.1 (by decide)).2⟩

lemma findQueueFamiliesAux_graphics_eq (l : List VkQueueFamilyProperties) :
    ∀ (n : Nat) (ind : QueueFamilyIndices),
      (∀ qf ∈ l, qf.supportsGraphics = false) →
      (findQueueFamiliesAux l n ind).graphicsFamily = ind.graphicsFamily := by
  induction l with
  | nil => intro n ind _; rfl
  | cons qf rest ih =>
    intro n ind h
    have hq : qf.supportsGraphics = false := h qf (List.mem_cons_self qf rest)
    have hrest : ∀ x ∈ rest, x.supportsGraphics = false :=
      fun x hx => h x (List.mem_cons_of_mem qf hx)
    by_cases hp : qf.supportsPresent
    · simp only [findQueueFamiliesAux, hq, hp, Bool.false_eq_true, if_false, if_true]
      split
      · rfl
      · rw [ih (n + 1) _ hrest]
    · simp only [findQueueFamiliesAux, hq, hp, Bool.false_eq_true, if_false]
      split
      · rfl
      · rw [ih (n + 1) _ hrest]

lemma findQueueFamiliesAux_present_eq (l : List VkQueueFamilyProperties) :
    ∀ (n : Nat) (ind : QueueFamilyIndices),
      (∀ qf ∈ l, qf.supportsPresent = false) →
      (findQueueFamiliesAux l n ind).presentFamily = ind.presentFamily := by
  induction l with
  | nil => intro n ind _; rfl
  | cons qf rest ih =>
    intro n ind h
    have hq : qf.supportsPresent = false := h qf (List.mem_cons_self qf rest)
    have hrest : ∀ x ∈ rest, x.supportsPresent = false :=
      fun x hx => h x (List.mem_cons_of_mem qf hx)
    by_cases hg : qf.supportsGraphics
    · simp only [findQueueFamiliesAux, hq, hg, Bool.false_eq_true, if_false, if_true]
      split
      · rfl
      · rw [ih (n + 1) _ hrest]
    · simp only [findQueueFamiliesAux, hq, hg, Bool.false_eq_true, if_false]
      split
      · rfl
      · rw [ih (n + 1) _ hrest]

lemma graphics_witness_in_rest {qf : VkQueueFamilyProperties}
    {rest : List VkQueueFamilyProperties}
    (hqg : qf.supportsGraphics = false)
    (hex : ∃ x ∈ qf :: rest, x.supportsGraphics = true) :
    ∃ x ∈ rest, x.supportsGraphics = true := by
  obtain ⟨x, hx, hxg⟩ := hex
  rcases List.mem_cons.mp hx with rfl | hx'
  · rw [hqg] at hxg; exact absurd hxg (by simp)
  · exact ⟨x, hx', hxg⟩

lemma present_witness_in_rest {qf : VkQueueFamilyProperties}
    {rest : List VkQueueFamilyProperties}
    (hqp : qf.supportsPresent = false)
    (hex : ∃ x ∈ qf :: rest, x.supportsPresent = true) :
    ∃ x ∈ rest, x.supportsPresent = true := by
  obtain ⟨x, hx, hxp⟩ := hex
  rcases List.mem_cons.mp hx with rfl | hx'
  · rw [hqp] at hxp; exact absurd hxp (by simp)
  · exact ⟨x, hx', hxp⟩

lemma findQueueFamiliesAux_isComplete (l : List VkQueueFamilyProperties) :
    ∀ (n : Nat) (ind : QueueFamilyIndices),
      (ind.graphicsFamily.isSome = true ∨ ∃ qf ∈ l, qf.supportsGraphics = true) →
      (ind.presentFamily.isSome = true ∨ ∃ qf ∈ l, qf.supportsPresent = true) →
      (findQueueFamiliesAux l n ind).isComplete = true := by
  induction l with
  | nil =>
    intro n ind hg hp
    simp only [List.not_mem_nil, false_and, exists_false, or_false] at hg hp
    simp [findQueueFamiliesAux, QueueFamilyIndices.isComplete, hg, hp]
  | cons qf rest ih =>
    intro n ind hg hp
    by_cases hqg : qf.supportsGraphics <;> by_cases hqp : qf.supportsPresent
    · -- head supports both: the indices are complete and the loop breaks
      simp [findQueueFamiliesAux, hqg, hqp, QueueFamilyIndices.isComplete]
    · -- head supports graphics only
      simp only [findQueueFamiliesAux, hqg, hqp, Bool.false_eq_true, if_true, if_false]
      by_cases hc : ind.presentFamily.isSome
      · simp [QueueFamilyIndices.isComplete, hc]
      · have hcomp :
            ({ ind with graphicsFamily := some n } : QueueFamilyIndices).isComplete = false := by
          simp [QueueFamilyIndices.isComplete, hc]
        rw [hcomp]
        simp only [Bool.false_eq_true, if_false]
        apply ih (n + 1)
        · left; rfl
        · rcases hp with h | hex
          · exact absurd h hc
          · exact Or.inr (present_witness_in_rest (Bool.eq_false_iff.mpr hqp) hex)
    · -- head supports present only
      simp only [findQueueFamiliesAux, hqg, hqp, Bool.false_eq_true, if_true, if_false]
      by_cases hc : ind.graphicsFamily.isSome
      · simp [QueueFamilyIndices.isComplete, hc]
      · have hcomp :
            ({ ind with presentFamily := some n } : QueueFamilyIndices).isComplete = false := by
          simp [QueueFamilyIndices.isComplete, hc]
        rw [hcomp]
        simp only [Bool.false_eq_true, if_false]
        apply ih (n + 1)
        · rcases hg with h | hex
          · exact absurd h hc
          · exact Or.inr (graphics_witness_in_rest (Bool.eq_false_iff.mpr hqg) hex)
        · left; rfl
    · -- head supports neither flag
      simp only [findQueueFamiliesAux, hqg, hqp, Bool.false_eq_true, if_false]
      by_cases hc : ind.isComplete
      · rw [if_pos hc]; exact hc
      · rw [Bool.eq_false_iff.mpr hc]
        simp only [Bool.false_eq_true, if_false]
        have hcg : ind.graphicsFamily.isSome = true ∨ ∃ x ∈ rest, x.supportsGraphics = true := by
          rcases hg with h | hex
          · exact Or.inl h
          · exact Or.inr (graphics_witness_in_rest (Bool.eq_false_iff.mpr hqg) hex)
        have hcp : ind.presentFamily.isSome = true ∨ ∃ x ∈ rest, x.supportsPresent = true := by
          rcases hp with h | hex
          · exact Or.inl h
          · exact Or.inr (present_witness_in_rest (Bool.eq_false_iff.mpr hqp) hex)
        exact ih (n + 1) ind hcg hcp

/-- A device meeting every requirement the claim lists, including the
sampler-anisotropy feature. -/
def gpuSuitable : VkPhysicalDevice :=
  { queueFamilies := [{ supportsGraphics := true, supportsPresent := true }],
    availableExtensions := ["VK_KHR_swapchain"],
    surfaceFormats := [{ format := 50, colorSpace := 0 }],
    surfacePresentModes := [VK_PRESENT_MODE_FIFO_KHR],
    samplerAnisotropy := true }

/-- The same device with the samplerAnisotropy feature absent. -/
def gpuNoAnisotropy : VkPhysicalDevice :=
  { gpuSuitable with samplerAnisotropy := false }

/-- C6 counterexample: gpuNoAnisotropy has a graphics-capable family, a
present-capable family, every required extension, and non-empty format
and present-mode lists, yet isDeviceSuitable rejects it, because the
VulkanUtils variant additionally requires the samplerAnisotropy feature,
which the claim does not list; and the main.cpp variant rejects even the
fully-qualified gpuSuitable, because its extension check's
pointer comparison never matches a name. -/
theorem isDeviceSuitable_missing_feature_counterexample :
    gpuNoAnisotropy.queueFamilies.any (fun qf => qf.supportsGraphics) = true ∧
    gpuNoAnisotropy.queueFamilies.any (fun qf => qf.supportsPresent) = true ∧
    checkDeviceExtensionSupported gpuNoAnisotropy = true ∧
    gpuNoAnisotropy.surfaceFormats ≠ [] ∧
    gpuNoAnisotropy.surfacePresentModes ≠ [] ∧
    isDeviceSuitable gpuNoAnisotropy = false ∧
    isDeviceSuitableMain gpuSuitable = false := by
  decide

lemma checkDeviceExtensionSupportedMain_false (device : VkPhysicalDevice) :
    checkDeviceExtensionSupportedMain device = false := by
  simp [checkDeviceExtensionSupportedMain, gDeviceExtensions, extensionNameAddressEq]

/-- C6 (amended): both isDeviceSuitable variants return false for a
device missing a graphics-capable family, a present-capable family, its
extension check, or non-empty format/present-mode lists; the VulkanUtils
variant returns true for a device with all of these exactly when the
device additionally reports the samplerAnisotropy feature (its result
then equals that feature bit); the main.cpp variant returns true for no
device at all, because its extension check compares the extensionName
char array to the required const char* by address, which never holds. -/
theorem isDeviceSuitable_spec (device : VkPhysicalDevice) :
    (device.queueFamilies.all (fun qf => !qf.supportsGraphics) = true →
       isDeviceSuitable device = false ∧ isDeviceSuitableMain device = false) ∧
    (device.queueFamilies.all (fun qf => !qf.supportsPresent) = true →
       isDeviceSuitable device = false ∧ isDeviceSuitableMain device = false) ∧
    (checkDeviceExtensionSupported device = false →
       isDeviceSuitable device = false) ∧
    (checkDeviceExtensionSupportedMain device = false →
       isDeviceSuitableMain device = false) ∧
    (device.surfaceFormats = [] ∨ device.surfacePresentModes = [] →
       isDeviceSuitable device = false ∧ isDeviceSuitableMain device = false) ∧
    (device.queueFamilies.any (fun qf => qf.supportsGraphics) = true →
     device.queueFamilies.any (fun qf => qf.supportsPresent) = true →
     checkDeviceExtensionSupported device = true →
     device.surfaceFormats ≠ [] →
     device.surfacePresentModes ≠ [] →
       isDeviceSuitable device = device.samplerAnisotropy) ∧
    checkDeviceExtensionSupportedMain device = false ∧
    isDeviceSuitableMain device = false := by
  have hmainext := checkDeviceExtensionSupportedMain_false device
  have hmain : isDeviceSuitableMain device = false := by
    simp [isDeviceSuitableMain, hmainext]
  refine ⟨fun hng => ?_, fun hnp => ?_, fun hne => ?_, fun _ => hmain,
    fun hempty => ?_, fun hag hap hext hf hm => ?_, hmainext, hmain⟩
  · have hnone : (findQueueFamilies device).graphicsFamily = none := by
      have hall : ∀ qf ∈ device.queueFamilies, qf.supportsGraphics = false := by
        intro qf hqf
        have := List.all_eq_true.mp hng qf hqf
        simpa using this
      exact findQueueFamiliesAux_graphics_eq device.queueFamilies 0 _ hall
    have hcomp : (findQueueFamilies device).isComplete = false := by
      simp [QueueFamilyIndices.isComplete, hnone]
    exact ⟨by simp [isDeviceSuitable, hcomp], hmain⟩
  · have hnone : (findQueueFamilies device).presentFamily = none := by
      have hall : ∀ qf ∈ device.queueFamilies, qf.supportsPresent = false := by
        intro qf hqf
        have := List.all_eq_true.mp hnp qf hqf
        simpa using this
      exact findQueueFamiliesAux_present_eq device.queueFamilies 0 _ hall
    have hcomp : (findQueueFamilies device).isComplete = false := by
      simp [QueueFamilyIndices.isComplete, hnone]
    exact ⟨by simp [isDeviceSuitable, hcomp], hmain⟩
  · simp [isDeviceSuitable, hne]
  · have hfalse :
        (if checkDeviceExtensionSupported device then
            !(querySwapChainSupport device).formats.isEmpty &&
              !(querySwapChainSupport device).presentModes.isEmpty
          else false) = false := by
      rcases hempty with h | h <;> split <;> simp [querySwapChainSupport, h]
    refine ⟨?_, hmain⟩
    simp only [isDeviceSuitable, hfalse]
    simp
  · have hcomp : (findQueueFamilies device).isComplete = true := by
      apply findQueueFamiliesAux_isComplete device.queueFamilies 0
      · right
        obtain ⟨qf, hqf, hq⟩ := List.any_eq_true.mp hag
        exact ⟨qf, hqf, hq⟩
      · right
        obtain ⟨qf, hqf, hq⟩ := List.any_eq_true.mp hap
        exact ⟨qf, hqf, hq⟩
    have hadq :
        (if checkDeviceExtensionSupported device then
            !(querySwapChainSupport device).formats.isEmpty &&
              !(querySwapChainSupport device).presentModes.isEmpty
          else false) = true := by
      rw [if_pos hext]
      simp [querySwapChainSupport, List.isEmpty_iff, hf, hm]
    simp only [isDeviceSuitable, hadq, hcomp, hext]
    simp [querySwapChainSupport, hf, hm]

/-- Witness for isDeviceSuitable_spec at the fully qualified device:
the VulkanUtils variant's result equals the feature bit, while the
main.cpp variant still rejects it. -/
theorem isDeviceSuitable_spec_witness :
    isDeviceSuitable gpuSuitable = gpuSuitable.samplerAnisotropy ∧
    isDeviceSuitableMain gpuSuitable = false :=
  ⟨(isDeviceSuitable_spec gpuSuitable).2.2.2.2.2.1
     (by decide) (by decide) (by decide) (by decide) (by decide),
   (isDeviceSuitable_spec gpuSuitable).2.2.2.2.2.2.2⟩

/-- A concrete app state: slot 0 current, two sync objects per array
(fences 31 and 32), three swapchain images, image 0 still in flight from
the frame that used fence 32. -/
def demoState : AppState :=
  { currentFrameIndex := 0,
    imageAvailableSemaphores := [11, 12],
    renderFinishedSemaphores := [21, 22],
    inFlightFences := [31, 32],
    imagesInFlight := [some 32, none, none],
    frameBufferResized := false,
    swapChainImageCount := 3 }

/-- Concrete drawFrame inputs: the acquire returns image 0 and both
submit and present succeed. -/
def demoInputs : DrawInputs :=
  { imageIndex := 0,
    submitResult := VkResult.success,
    presentResult := VkResult.success,
    polls := [],
    newImageCount := 3 }

/-- The state drawFrame produces from demoState and demoInputs. -/
def demoResult : AppState :=
  { demoState with imagesInFlight := [some 31, none, none], currentFrameIndex := 1 }

/-- The call trace drawFrame produces from demoState and demoInputs. -/
def demoTrace : List Action :=
  [Action.waitFences 31 UINT16_MAX,
   Action.acquireNextImage 11 UINT64_MAX,
   Action.waitFences 32 UINT64_MAX,
   Action.resetFences 31,
   Action.updateUniformBuffer 0,
   Action.queueSubmit 11 21 31 0,
   Action.queuePresent 21 0]

/-- C1 (evaluation at the failing input): the wait on the current slot's
in-flight fence is issued with timeout UINT16_MAX = 65535 nanoseconds
rather than an unbounded timeout, while the rest of the frame behaves as
the claim describes: the recorded per-image fence (32) is waited on with
UINT64_MAX before submission, the fence table entry for the acquired
image is set to the slot fence (31), the submission signals the slot
fence and the slot render-finished semaphore (21), and presentation
waits on that semaphore. -/
theorem drawFrame_slot_fence_wait_bounded :
    drawFrame demoState demoInputs = some (demoResult, demoTrace) ∧
    demoTrace.head? = some (Action.waitFences 31 UINT16_MAX) ∧
    Action.waitFences 31 UINT64_MAX ∉ demoTrace ∧
    Action.waitFences 32 UINT64_MAX ∈ demoTrace ∧
    demoResult.imagesInFlight.getD 0 none = some 31 ∧
    Action.queueSubmit 11 21 31 0 ∈ demoTrace ∧
    Action.queuePresent 21 0 ∈ demoTrace ∧
    UINT16_MAX < UINT64_MAX := by
  decide

/-- Classifier for the actions the minimization wait loop may emit. -/
def isPollAction : Action → Bool
  | Action.pollFramebufferSize _ _ => true
  | Action.waitEvents => true
  | _ => false

/-- The framebuffer sizes reported by the size queries in a trace, in
order. -/
def pollResults : List Action → List (Nat × Nat)
  | [] => []
  | Action.pollFramebufferSize w h :: rest => (w, h) :: pollResults rest
  | _ :: rest => pollResults rest

lemma pollLoopInner_none (polls : List (Nat × Nat))
    (h : ∀ p ∈ polls, p.1 = 0 ∨ p.2 = 0) : pollLoopInner polls = none := by
  induction polls with
  | nil => rfl
  | cons p rest ih =>
    obtain ⟨w, h'⟩ := p
    have hz := h (w, h') (List.mem_cons_self _ _)
    simp only [pollLoopInner, if_pos hz]
    rw [ih fun q hq => h q (List.mem_cons_of_mem _ hq)]

lemma pollLoop_none (polls : List (Nat × Nat))
    (h : ∀ p ∈ polls, p.1 = 0 ∨ p.2 = 0) : pollLoop polls = none := by
  cases polls with
  | nil => rfl
  | cons p rest =>
    obtain ⟨w, h'⟩ := p
    have hz := h (w, h') (List.mem_cons_self _ _)
    simp only [pollLoop, if_pos hz]
    rw [pollLoopInner_none rest fun q hq => h q (List.mem_cons_of_mem _ hq)]

lemma pollLoopInner_spec (polls : List (Nat × Nat)) :
    ∀ sz tr, pollLoopInner polls = some (sz, tr) →
      (∀ a ∈ tr, isPollAction a = true) ∧
      (∃ zs, pollResults tr = zs ++ [sz] ∧ (∀ p ∈ zs, p.1 = 0 ∨ p.2 = 0)) ∧
      sz.1 ≠ 0 ∧ sz.2 ≠ 0 := by
  induction polls with
  | nil => intro sz tr h; exact absurd h (by simp [pollLoopInner])
  | cons p rest ih =>
    intro sz tr h
    obtain ⟨w, hh⟩ := p
    by_cases hz : w = 0 ∨ hh = 0
    · rw [pollLoopInner, if_pos hz] at h
      cases hrec : pollLoopInner rest with
      | none => rw [hrec] at h; exact absurd h (by simp)
      | some p' =>
        obtain ⟨sz', tr'⟩ := p'
        rw [hrec] at h
        obtain ⟨h1, h2⟩ := Prod.mk.injEq .. ▸ (Option.some.injEq .. ▸ h :
          (sz', Action.pollFramebufferSize w hh :: Action.waitEvents :: tr') = (sz, tr))
        obtain ⟨hall, ⟨zs, hzs, hz0⟩, hns⟩ := ih sz' tr' hrec
        subst h1; subst h2
        refine ⟨?_, ⟨(w, hh) :: zs, ?_, ?_⟩, hns⟩
        · intro a ha
          rcases List.mem_cons.mp ha with rfl | ha'
          · rfl
          · rcases List.mem_cons.mp ha' with rfl | ha''
            · rfl
            · exact hall a ha''
        · simp [pollResults, hzs]
        · intro q hq
          rcases List.mem_cons.mp hq with rfl | hq'
          · exact hz
          · exact hz0 q hq'
    · rw [pollLoopInner, if_neg hz] at h
      obtain ⟨h1, h2⟩ := Prod.mk.injEq .. ▸ (Option.some.injEq .. ▸ h :
        ((w, hh), [Action.pollFramebufferSize w hh, Action.waitEvents]) = (sz, tr))
      subst h1; subst h2
      push_neg at hz
      refine ⟨?_, ⟨[], by simp [pollResults], by simp⟩, hz.1, hz.2⟩
      intro a ha
      rcases List.mem_cons.mp ha with rfl | ha'
      · rfl
      · rcases List.mem_cons.mp ha' with rfl | ha''
        · rfl
        · exact absurd ha'' (List.not_mem_nil a)

lemma pollLoop_spec (polls : List (Nat × Nat)) :
    ∀ sz tr, pollLoop polls = some (sz, tr) →
      (∀ a ∈ tr, isPollAction a = true) ∧
      (∃ zs, pollResults tr = zs ++ [sz] ∧ (∀ p ∈ zs, p.1 = 0 ∨ p.2 = 0)) ∧
      sz.1 ≠ 0 ∧ sz.2 ≠ 0 := by
  intro sz tr h
  cases polls with
  | nil => exact absurd h (by simp [pollLoop])
  | cons p rest =>
    obtain ⟨w, hh⟩ := p
    by_cases hz : w = 0 ∨ hh = 0
    · rw [pollLoop, if_pos hz] at h
      cases hrec : pollLoopInner rest with
      | none => rw [hrec] at h; exact absurd h (by simp)
      | some p' =>
        obtain ⟨sz', tr'⟩ := p'
        rw [hrec] at h
        obtain ⟨h1, h2⟩ := Prod.mk.injEq .. ▸ (Option.some.injEq .. ▸ h :
          (sz', Action.pollFramebufferSize w hh :: tr') = (sz, tr))
        obtain ⟨hall, ⟨zs, hzs, hz0⟩, hns⟩ := pollLoopInner_spec rest sz' tr' hrec
        subst h1; subst h2
        refine ⟨?_, ⟨(w, hh) :: zs, ?_, ?_⟩, hns⟩
        · intro a ha
          rcases List.mem_cons.mp ha with rfl | ha'
          · rfl
          · exact hall a ha'
        · simp [pollResults, hzs]
        · intro q hq
          rcases List.mem_cons.mp hq with rfl | hq'
          · exact hz
          · exact hz0 q hq'
    · rw [pollLoop, if_neg hz] at h
      obtain ⟨h1, h2⟩ := Prod.mk.injEq .. ▸ (Option.some.injEq .. ▸ h :
        ((w, hh), [Action.pollFramebufferSize w hh]) = (sz, tr))
      subst h1; subst h2
      push_neg at hz
      refine ⟨?_, ⟨[], by simp [pollResults], by simp⟩, hz.1, hz.2⟩
      intro a ha
      rcases List.mem_cons.mp ha with rfl | ha'
      · rfl
      · exact absurd ha' (List.not_mem_nil a)

lemma recreateSwapChain_preserves (polls : List (Nat × Nat)) (n : Nat)
    (s s' : AppState) (tr : List Action)
    (h : recreateSwapChain polls n s = some (s', tr)) :
    s'.currentFrameIndex = s.currentFrameIndex ∧
    s'.imageAvailableSemaphores = s.imageAvailableSemaphores ∧
    s'.renderFinishedSemaphores = s.renderFinishedSemaphores ∧
    s'.inFlightFences = s.inFlightFences ∧
    s'.frameBufferResized = s.frameBufferResized ∧
    s'.imagesInFlight = listResize s.imagesInFlight n none ∧
    s'.swapChainImageCount = n ∧
    ∃ sz trPolls, pollLoop polls = some (sz, trPolls) ∧
      tr = trPolls ++ recreateActions n := by
  unfold recreateSwapChain at h
  cases hpl : pollLoop polls with
  | none => rw [hpl] at h; exact absurd h (by simp)
  | some p =>
    obtain ⟨sz, trPolls⟩ := p
    rw [hpl] at h
    obtain ⟨h1, h2⟩ := Prod.mk.injEq .. ▸ (Option.some.injEq .. ▸ h)
    subst h1; subst h2
    exact ⟨rfl, rfl, rfl, rfl, rfl, rfl, rfl, sz, trPolls, rfl, rfl⟩

lemma listResize_length {α : Type} (l : List α) (n : Nat) (v : α) :
    (listResize l n v).length = n := by
  unfold listResize
  split
  · rw [List.length_take]; omega
  · rw [List.length_append, List.length_replicate]; omega

/-- C2: recreateSwapChain never begins destruction while the framebuffer
has a zero dimension: it blocks forever when every polled size has a
zero dimension, and otherwise its trace is a block of size polls and
event waits, in which every poll before the final one reports a zero
dimension and the final one is non-zero, followed by exactly the
device-idle wait, the destruction of the swapchain-dependent objects,
their reconstruction, and the imagesInFlight resize to the new image
count; the per-frame sync arrays are untouched.  Within drawFrame the
recreation (hence the destruction) runs exactly when the present result
is out-of-date/suboptimal or the resize flag is set. -/
theorem recreateSwapChain_spec (polls : List (Nat × Nat)) (n : Nat) (s : AppState) :
    ((∀ p ∈ polls, p.1 = 0 ∨ p.2 = 0) → recreateSwapChain polls n s = none) ∧
    (∀ s' tr, recreateSwapChain polls n s = some (s', tr) →
       ∃ trPolls,
         tr = trPolls ++ recreateActions n ∧
         (∀ a ∈ trPolls, isPollAction a = true) ∧
         (∃ zs w h, pollResults trPolls = zs ++ [(w, h)] ∧
            (∀ p ∈ zs, p.1 = 0 ∨ p.2 = 0) ∧ w ≠ 0 ∧ h ≠ 0) ∧
         s'.imagesInFlight.length = n ∧
         s'.swapChainImageCount = n ∧
         s'.imageAvailableSemaphores = s.imageAvailableSemaphores ∧
         s'.renderFinishedSemaphores = s.renderFinishedSemaphores ∧
         s'.inFlightFences = s.inFlightFences) ∧
    (∀ s0 inp s' tr, drawFrame s0 inp = some (s', tr) →
       (Action.cleanupSwapChainAct ∈ tr ↔
         (inp.presentResult = VkResult.errorOutOfDateKHR ∨
          inp.presentResult = VkResult.suboptimalKHR ∨ s0.frameBufferResized = true))) := by
  refine ⟨fun hz => ?_, fun s' tr h => ?_, fun s0 inp s' tr h => ?_⟩
  · unfold recreateSwapChain
    rw [pollLoop_none polls hz]
  · obtain ⟨-, hsem1, hsem2, hfen, -, himg, hcnt, sz, trPolls, hpl, htr⟩ :=
      recreateSwapChain_preserves polls n s s' tr h
    obtain ⟨hall, ⟨zs, hzs, hz0⟩, hns1, hns2⟩ := pollLoop_spec polls sz trPolls hpl
    refine ⟨trPolls, htr, hall, ⟨zs, sz.1, sz.2, by simpa using hzs, hz0, hns1, hns2⟩,
      ?_, hcnt, hsem1, hsem2, hfen⟩
    rw [himg]
    exact listResize_length _ _ _
  · simp only [drawFrame] at h
    split at h
    · simp at h
    · split at h
      · rename_i hcond
        rw [Option.map_eq_some'] at h
        obtain ⟨⟨s2, tr2⟩, hrec, hmk⟩ := h
        obtain ⟨-, -, -, -, -, -, -, sz, trPolls, -, htr2⟩ :=
          recreateSwapChain_preserves _ _ _ _ _ hrec
        have htr : tr = _ ++ tr2 := (congrArg Prod.snd hmk).symm
        constructor
        · intro _
          simpa using hcond
        · intro _
          rw [htr, htr2]
          simp [recreateActions]
      · rename_i hcond
        split at h
        · simp at h
        · have htr : tr = _ := (congrArg Prod.snd (Option.some.injEq .. ▸ h :
            (_, _) = (s', tr))).symm
          constructor
          · intro hmem
            rw [htr] at hmem
            cases hM : s0.imagesInFlight.getD inp.imageIndex none <;>
              rw [hM] at hmem <;> simp at hmem
          · intro hc
            exact absurd (by simpa using hc) hcond

/-- The state recreateSwapChain produces from demoState with new image
count 2. -/
def recreateDemoResult : AppState :=
  { demoState with imagesInFlight := [some 32, none], swapChainImageCount := 2 }

/-- Witness for recreateSwapChain_spec: a forever-minimized poll stream
blocks, a concrete non-zero poll recreates, and the demo drawFrame run
performs no destruction. -/
theorem recreateSwapChain_spec_witness :
    recreateSwapChain [(0, 0)] 3 demoState = none ∧
    (∃ trPolls,
       Action.pollFramebufferSize 7 8 :: recreateActions 2 = trPolls ++ recreateActions 2 ∧
       (∀ a ∈ trPolls, isPollAction a = true) ∧
       (∃ zs w h, pollResults trPolls = zs ++ [(w, h)] ∧
          (∀ p ∈ zs, p.1 = 0 ∨ p.2 = 0) ∧ w ≠ 0 ∧ h ≠ 0) ∧
       recreateDemoResult.imagesInFlight.length = 2 ∧
       recreateDemoResult.swapChainImageCount = 2 ∧
       recreateDemoResult.imageAvailableSemaphores = demoState.imageAvailableSemaphores ∧
       recreateDemoResult.renderFinishedSemaphores = demoState.renderFinishedSemaphores ∧
       recreateDemoResult.inFlightFences = demoState.inFlightFences) ∧
    (Action.cleanupSwapChainAct ∈ demoTrace ↔
       (demoInputs.presentResult = VkResult.errorOutOfDateKHR ∨
        demoInputs.presentResult = VkResult.suboptimalKHR ∨
        demoState.frameBufferResized = true)) :=
  ⟨(recreateSwapChain_spec [(0, 0)] 3 demoState).1 (by decide),
   (recreateSwapChain_spec [(7, 8)] 2 demoState).2.1 recreateDemoResult
     (Action.pollFramebufferSize 7 8 :: recreateActions 2) (by decide),
   (recreateSwapChain_spec [] 0 demoState).2.2 demoState demoInputs demoResult demoTrace
     (by decide)⟩

/-- The frame index after k completed drawFrame calls starting from 0,
each applying the unconditional final update
currentFrameIndex = (currentFrameIndex + 1) % MAX_FRAMES_IN_FLIGHT. -/
def frameIndexIter : Nat → Nat
  | 0 => 0
  | k + 1 => (frameIndexIter k + 1) % MAX_FRAMES_IN_FLIGHT

/-- C7: MAX_FRAMES_IN_FLIGHT is 2; every completed drawFrame call,
recreation or not, leaves currentFrameIndex = (old + 1) mod
MAX_FRAMES_IN_FLIGHT; consequently after k frame advances from 0 the
index is k mod 2, cycling with period MAX_FRAMES_IN_FLIGHT. -/
theorem drawFrame_frame_index_cycles :
    MAX_FRAMES_IN_FLIGHT = 2 ∧
    (∀ s inp s' tr, drawFrame s inp = some (s', tr) →
       s'.currentFrameIndex = (s.currentFrameIndex + 1) % MAX_FRAMES_IN_FLIGHT) ∧
    (∀ k, frameIndexIter k = k % 2) ∧
    (∀ k, frameIndexIter (k + MAX_FRAMES_IN_FLIGHT) = frameIndexIter k) := by
  have hiter : ∀ k, frameIndexIter k = k % 2 := by
    intro k
    induction k with
    | zero => rfl
    | succ m ih =>
      show (frameIndexIter m + 1) % MAX_FRAMES_IN_FLIGHT = (m + 1) % 2
      rw [ih, MAX_FRAMES_IN_FLIGHT]
      omega
  refine ⟨rfl, fun s inp s' tr h => ?_, hiter, fun k => ?_⟩
  · simp only [drawFrame] at h
    split at h
    · simp at h
    · split at h
      · rw [Option.map_eq_some'] at h
        obtain ⟨⟨s2, tr2⟩, hrec, hmk⟩ := h
        have hidx := (recreateSwapChain_preserves _ _ _ _ _ hrec).1
        have hs' := congrArg Prod.fst hmk
        simp only at hs'
        rw [← hs']
        simp [hidx]
      · split at h
        · simp at h
        · have hs' := congrArg Prod.fst (Option.some.injEq .. ▸ h : (_, _) = (s', tr))
          simp only at hs'
          rw [← hs']
  · rw [hiter, hiter, MAX_FRAMES_IN_FLIGHT]
    omega

/-- Witness for drawFrame_frame_index_cycles at the demo frame. -/
theorem drawFrame_frame_index_cycles_witness :
    demoResult.currentFrameIndex =
      (demoState.currentFrameIndex + 1) % MAX_FRAMES_IN_FLIGHT :=
  drawFrame_frame_index_cycles.2.1 demoState demoInputs demoResult demoTrace (by decide)

lemma listResize_nil (n : Nat) :
    listResize ([] : List (Option Nat)) n none = List.replicate n none := by
  unfold listResize
  split
  · rename_i hle
    have : n = 0 := Nat.le_zero.mp (by simpa using hle)
    simp [this]
  · simp

lemma listResize_getD_none {l : List (Option Nat)} {n i : Nat}
    (h : l.getD i none = none) : (listResize l n none).getD i none = none := by
  rw [List.getD_eq_getElem?_getD] at h ⊢
  unfold listResize
  split
  · rw [List.getElem?_take]
    split
    · exact h
    · rfl
  · rw [List.getElem?_append]
    split
    · exact h
    · rw [List.getElem?_replicate]
      split <;> rfl

lemma listResize_getD_keep {l : List (Option Nat)} {n i : Nat}
    (hi : i < n) (hl : i < l.length) :
    (listResize l n none).getD i none = l.getD i none := by
  rw [List.getD_eq_getElem?_getD, List.getD_eq_getElem?_getD]
  unfold listResize
  split
  · rw [List.getElem?_take, if_pos hi]
  · rw [List.getElem?_append, if_pos hl]

/-- C9: after createSyncObjects the three per-frame arrays have length
MAX_FRAMES_IN_FLIGHT and the fence table is all-null with one entry per
swapchain image; recreation leaves the per-frame arrays untouched,
resizes the fence table to the new image count, keeps null entries null
and claimed entries claimed; and a completed drawFrame without
recreation changes the table only at the acquired image index, setting
it to the current slot's fence. -/
theorem syncObjects_invariants :
    (∀ semA semR fen s, s.imagesInFlight = [] →
       (createSyncObjects semA semR fen s).imageAvailableSemaphores.length =
         MAX_FRAMES_IN_FLIGHT ∧
       (createSyncObjects semA semR fen s).renderFinishedSemaphores.length =
         MAX_FRAMES_IN_FLIGHT ∧
       (createSyncObjects semA semR fen s).inFlightFences.length =
         MAX_FRAMES_IN_FLIGHT ∧
       (createSyncObjects semA semR fen s).imagesInFlight =
         List.replicate s.swapChainImageCount none) ∧
    (∀ polls n s s' tr, recreateSwapChain polls n s = some (s', tr) →
       s'.imageAvailableSemaphores = s.imageAvailableSemaphores ∧
       s'.renderFinishedSemaphores = s.renderFinishedSemaphores ∧
       s'.inFlightFences = s.inFlightFences ∧
       s'.imagesInFlight.length = n ∧
       s'.swapChainImageCount = n ∧
       (∀ i, s.imagesInFlight.getD i none = none →
          s'.imagesInFlight.getD i none = none) ∧
       (∀ i, i < n → i < s.imagesInFlight.length →
          s'.imagesInFlight.getD i none = s.imagesInFlight.getD i none)) ∧
    (∀ s inp s' tr, inp.presentResult = VkResult.success →
       s.frameBufferResized = false →
       drawFrame s inp = some (s', tr) →
       s'.imagesInFlight = s.imagesInFlight.set inp.imageIndex
         (some (s.inFlightFences.getD s.currentFrameIndex 0))) := by
  refine ⟨fun semA semR fen s hempty => ?_, fun polls n s s' tr h => ?_,
    fun s inp s' tr hp hf h => ?_⟩
  · refine ⟨?_, ?_, ?_, ?_⟩ <;>
      simp [createSyncObjects, hempty, listResize_nil]
  · obtain ⟨-, hsem1, hsem2, hfen, -, himg, hcnt, -⟩ :=
      recreateSwapChain_preserves polls n s s' tr h
    refine ⟨hsem1, hsem2, hfen, ?_, hcnt, fun i hnull => ?_, fun i hi hl => ?_⟩
    · rw [himg]; exact listResize_length _ _ _
    · rw [himg]; exact listResize_getD_none hnull
    · rw [himg]; exact listResize_getD_keep hi hl
  · simp only [drawFrame] at h
    split at h
    · simp at h
    · split at h
      · rename_i hcond
        rw [hp] at hcond
        simp at hcond
        rw [hcond] at hf
        exact absurd hf (by simp)
      · split at h
        · simp at h
        · have hs' := congrArg Prod.fst (Option.some.injEq .. ▸ h : (_, _) = (s', tr))
          simp only at hs'
          rw [← hs']

/-- Witness for syncObjects_invariants at the demo frame. -/
theorem syncObjects_invariants_witness :
    demoResult.imagesInFlight = demoState.imagesInFlight.set demoInputs.imageIndex
      (some (demoState.inFlightFences.getD demoState.currentFrameIndex 0)) :=
  syncObjects_invariants.2.2 demoState demoInputs demoResult demoTrace rfl rfl (by decide)

/-- C8: a checked creation call succeeds exactly on VK_SUCCESS and
otherwise faults through the fatal callback, which always throws; a
sequence of steps runs to completion when none faults, while the first
faulting step aborts the whole run with its message and the remaining
steps never run (no retry); the entry point maps a propagated fault to
EXIT_FAILURE with the message logged and a clean run to EXIT_SUCCESS. -/
theorem fatal_error_taxonomy :
    (∀ r msg, r ≠ VkResult.success → checkedVkCall r msg = Except.error msg) ∧
    (∀ r msg, checkedVkCall r msg = Except.ok () ↔ r = VkResult.success) ∧
    (∀ msg, fatalCallback msg = Except.error msg) ∧
    (∀ steps, (∀ st ∈ steps, st = Except.ok ()) → runSteps steps = Except.ok ()) ∧
    (∀ steps1 steps2 msg, (∀ st ∈ steps1, st = Except.ok ()) →
       runSteps (steps1 ++ fatalCallback msg :: steps2) = Except.error msg) ∧
    (∀ msg, mainEntry (Except.error msg) = (EXIT_FAILURE, [msg])) ∧
    mainEntry (Except.ok ()) = (EXIT_SUCCESS, []) := by
  have hok : ∀ steps : List (Except String Unit),
      (∀ st ∈ steps, st = Except.ok ()) → runSteps steps = Except.ok () := by
    intro steps h
    induction steps with
    | nil => rfl
    | cons st rest ih =>
      have hst := h st (List.mem_cons_self _ _)
      rw [hst]
      simp only [runSteps]
      exact ih fun x hx => h x (List.mem_cons_of_mem _ hx)
  have habort : ∀ (steps1 steps2 : List (Except String Unit)) (msg : String),
      (∀ st ∈ steps1, st = Except.ok ()) →
      runSteps (steps1 ++ fatalCallback msg :: steps2) = Except.error msg := by
    intro steps1 steps2 msg h
    induction steps1 with
    | nil => rfl
    | cons st rest ih =>
      have hst := h st (List.mem_cons_self _ _)
      rw [List.cons_append, hst]
      simp only [runSteps]
      exact ih fun x hx => h x (List.mem_cons_of_mem _ hx)
  refine ⟨fun r msg hr => ?_, fun r msg => ?_, fun msg => rfl, hok, habort,
    fun msg => rfl, rfl⟩
  · rw [checkedVkCall, if_neg hr]; rfl
  · constructor
    · intro h
      by_contra hr
      rw [checkedVkCall, if_neg hr] at h
      exact absurd h (by simp [fatalCallback])
    · intro h
      rw [checkedVkCall, if_pos h]

/-- Witness for fatal_error_taxonomy on concrete calls and step lists. -/
theorem fatal_error_taxonomy_witness :
    checkedVkCall VkResult.errorOther "creation failed" =
      Except.error "creation failed" ∧
    (checkedVkCall VkResult.success "creation failed" = Except.ok () ↔
      VkResult.success = VkResult.success) ∧
    runSteps [Except.ok (), Except.ok ()] = Except.ok () ∧
    runSteps [Except.ok (), fatalCallback "boom", Except.ok ()] =
      Except.error "boom" :=
  ⟨fatal_error_taxonomy.1 VkResult.errorOther "creation failed" (by decide),
   fatal_error_taxonomy.2.1 VkResult.success "creation failed",
   fatal_error_taxonomy.2.2.2.1 [Except.ok (), Except.ok ()] (by simp),
   fatal_error_taxonomy.2.2.2.2.1 [Except.ok ()] [Except.ok ()] "boom" (by simp)⟩

/-- C10: a device accepted by pickPhysicalDevice passed isDeviceSuitable,
whose swap-chain-adequacy conjunct guarantees non-empty format and
present-mode lists for that device, so the element-0 access performed by
chooseSwapSurfaceFormat inside createSwapChain is in bounds (the result
is some). -/
theorem pickPhysicalDevice_swapchain_access_safe :
    ∀ devices d, pickPhysicalDevice devices = Except.ok d →
      isDeviceSuitable d = true ∧
      d.surfaceFormats ≠ [] ∧
      d.surfacePresentModes ≠ [] ∧
      (chooseSwapSurfaceFormat d.surfaceFormats).isSome = true := by
  intro devices d h
  unfold pickPhysicalDevice at h
  split at h
  · exact absurd h (by simp)
  · cases hfind : devices.find? isDeviceSuitable with
    | none => rw [hfind] at h; exact absurd h (by simp)
    | some d' =>
      rw [hfind] at h
      have hd : d' = d := by
        have := (Except.ok.injEq .. ▸ h : d' = d)
        exact this
      subst hd
      have hsuit := List.find?_some hfind
      have hparts : (findQueueFamilies d').isComplete = true ∧
          checkDeviceExtensionSupported d' = true ∧
          (if checkDeviceExtensionSupported d' then
              !(querySwapChainSupport d').formats.isEmpty &&
                !(querySwapChainSupport d').presentModes.isEmpty
            else false) = true ∧
          d'.samplerAnisotropy = true := by
        have hx := hsuit
        unfold isDeviceSuitable at hx
        simp only [Bool.and_eq_true] at hx
        exact ⟨hx.1.1.1, hx.1.1.2, hx.1.2, hx.2⟩
      obtain ⟨-, hext, hadq, -⟩ := hparts
      rw [if_pos hext] at hadq
      simp only [Bool.and_eq_true, Bool.not_eq_true', querySwapChainSupport] at hadq
      have hfne : d'.surfaceFormats ≠ [] := by
        intro hnil
        rw [hnil] at hadq
        simp at hadq
      have hmne : d'.surfacePresentModes ≠ [] := by
        intro hnil
        rw [hnil] at hadq
        simp at hadq
      refine ⟨hsuit, hfne, hmne, ?_⟩
      unfold chooseSwapSurfaceFormat
      cases hff : d'.surfaceFormats.find? isPreferredSurfaceFormat with
      | some f => simp
      | none =>
        cases hl : d'.surfaceFormats with
        | nil => exact absurd hl hfne
        | cons a t => simp

/-- Witness for pickPhysicalDevice_swapchain_access_safe at a singleton
device list. -/
theorem pickPhysicalDevice_swapchain_access_safe_witness :
    isDeviceSuitable gpuSuitable = true ∧
    gpuSuitable.surfaceFormats ≠ [] ∧
    gpuSuitable.surfacePresentModes ≠ [] ∧
    (chooseSwapSurfaceFormat gpuSuitable.surfaceFormats).isSome = true :=
  pickPhysicalDevice_swapchain_access_safe [gpuSuitable] gpuSuitable rfl

end LearnVulkan
